import Mathlib

/-!
Verification development for the registrar asynchronous job subsystem.

The repository source under scrutiny ships only the API test-suite
(`registrar/apps/api/v1/tests/test_views.py`) and a database migration;
the job subsystem itself (`registrar/apps/core/jobs.py`,
`registrar/apps/api/v1/views.py`, `registrar/apps/enrollments`) is not
present.  Every definition below whose doc comment starts with
`Modelled from the spec:` is therefore a shallow embedding of the
missing component, written faithfully from the specification's contract
for that component (sections 3, 4, 6 and 7 of the spec) and constrained
by the expectations the shipped test-suite encodes.
-/

namespace Registrar

/-- Modelled from the spec: the state field of a Job Record, one of
Pending, InProgress, Succeeded, Failed (spec section 3). -/
inductive JobState where
  | pending
  | inProgress
  | succeeded
  | failed
deriving DecidableEq, Repr

/-- Modelled from the spec: Succeeded and Failed are the terminal states. -/
def JobState.isTerminal : JobState → Bool
  | .succeeded => true
  | .failed => true
  | _ => false

/-- Modelled from the spec: the exact state strings rendered by the
job-status endpoint (spec section 6: Pending, InProgress, Succeeded,
Failed, exact case). -/
def JobState.render : JobState → String
  | .pending => "Pending"
  | .inProgress => "InProgress"
  | .succeeded => "Succeeded"
  | .failed => "Failed"

/-- Modelled from the spec: a Job Record (spec section 3): owner,
state, creation timestamp, optional result location (set only on the
transition to Succeeded) and optional error message (set only on the
transition to Failed). -/
structure JobRecord where
  owner : String
  state : JobState
  created : Nat
  resultLocation : Option String
  errorMessage : Option String
deriving DecidableEq, Repr

/-- Modelled from the spec: the Job Record Store's persisted map from
job id to Job Record, embedded as an association list keyed by job id. -/
abbrev JobStore := List (String × JobRecord)

/-- Modelled from the spec: the error taxonomy of spec section 7. -/
inductive JobError where
  | notFound
  | invalidTransition
  | forbidden
  | storage
deriving DecidableEq, Repr

/-- Look a job id up in the store (first binding wins). -/
def lookupJob : JobStore → String → Option JobRecord
  | [], _ => none
  | (i, r) :: rest, jobId => if i = jobId then some r else lookupJob rest jobId

/-- Replace the first binding of a job id in the store. -/
def updateJob : JobStore → String → JobRecord → JobStore
  | [], _, _ => []
  | (i, r) :: rest, jobId, r' =>
      if i = jobId then (i, r') :: rest else (i, r) :: updateJob rest jobId r'

/-- Modelled from the spec: `mark_succeeded(job_id, result_location)`
transitions the record to Succeeded and stores the result location;
it fails with `InvalidTransitionError` if the record is already
terminal, and with `NotFoundError` if no record exists (spec 4.1). -/
def mark_succeeded (s : JobStore) (jobId loc : String) : Except JobError JobStore :=
  match lookupJob s jobId with
  | none => .error .notFound
  | some r =>
      if r.state.isTerminal then .error .invalidTransition
      else .ok (updateJob s jobId { r with state := .succeeded, resultLocation := some loc })

/-- Modelled from the spec: `mark_failed(job_id, error_message)`
transitions the record to Failed and stores the error message; same
guards as `mark_succeeded` (spec 4.1). -/
def mark_failed (s : JobStore) (jobId msg : String) : Except JobError JobStore :=
  match lookupJob s jobId with
  | none => .error .notFound
  | some r =>
      if r.state.isTerminal then .error .invalidTransition
      else .ok (updateJob s jobId { r with state := .failed, errorMessage := some msg })

theorem lookupJob_updateJob_self (s : JobStore) (jobId : String) (r r' : JobRecord)
    (h : lookupJob s jobId = some r) :
    lookupJob (updateJob s jobId r') jobId = some r' := by
  induction s with
  | nil => simp [lookupJob] at h
  | cons hd tl ih =>
      obtain ⟨i, rec⟩ := hd
      by_cases hi : i = jobId
      · simp [lookupJob, updateJob, hi]
      · simp [lookupJob, updateJob, hi] at h ⊢
        exact ih h

/-- Modelled from the spec: one enrollment row of the enrollment-export
job, with fields `student_key`, `status`, `account_exists`
(spec section 4.4). -/
structure Enrollment where
  student_key : String
  status : String
  account_exists : Bool
deriving DecidableEq, Repr

/-- Render a boolean the way the CSV/JSON serializations need it:
lowercase `true` / `false`. -/
def boolLower : Bool → String
  | true => "true"
  | false => "false"

/-- Modelled from the spec: one CSV line per row, columns
`student_key,status,account_exists`, boolean lowercase (spec 4.4). -/
def enrollmentCsvRow (e : Enrollment) : String :=
  e.student_key ++ "," ++ e.status ++ "," ++ boolLower e.account_exists

/-- Modelled from the spec: the CSV serialization of the enrollment
rows: no header row, newline-joined, no trailing newline (spec 4.4). -/
def serializeEnrollmentsCsv (rows : List Enrollment) : String :=
  String.intercalate "\n" (rows.map enrollmentCsvRow)

/-- Shallow JSON value tree, covering the constructors the enrollment
export produces (strings, booleans, arrays, objects). -/
inductive Json where
  | str (s : String)
  | bool (b : Bool)
  | arr (xs : List Json)
  | obj (fields : List (String × Json))
deriving Repr

/-- Escape one character the way Python `json.dumps` does for the
characters that can occur here (backslash, double quote, and the common
control characters). -/
def jsonEscapeChar (c : Char) : String :=
  if c = '\\' then "\\\\"
  else if c = '"' then "\\\""
  else if c = '\n' then "\\n"
  else if c = '\t' then "\\t"
  else if c = '\r' then "\\r"
  else String.singleton c

/-- Escape a string for inclusion between JSON double quotes. -/
def jsonEscape (s : String) : String :=
  String.join (s.data.map jsonEscapeChar)

/-- Quote a string as a JSON string literal. -/
def quoteStr (s : String) : String := "\"" ++ jsonEscape s ++ "\""

/-- Run of `n` spaces, for JSON indentation. -/
def spacesN (n : Nat) : String := String.mk (List.replicate n ' ')

mutual

/-- Modelled from the spec: the pretty printer of Python
`json.dumps(v, indent=4)` (item separator a comma, key separator a
colon and a space, items indented four spaces past `ind`), which is
what the test-suite compares the stored JSON artifact against. -/
def dumpsVal (ind : Nat) : Json → String
  | .str s => quoteStr s
  | .bool b => boolLower b
  | .arr xs =>
      match dumpsList (ind + 4) xs with
      | [] => "[]"
      | items => "[\n" ++ String.intercalate ",\n" items ++ "\n" ++ spacesN ind ++ "]"
  | .obj fs =>
      match dumpsFieldList (ind + 4) fs with
      | [] => "\x7b\x7d"
      | items => "\x7b\n" ++ String.intercalate ",\n" items ++ "\n" ++ spacesN ind ++ "\x7d"

/-- Pretty-print the items of a JSON array, each on its own line at
indentation `ind`. -/
def dumpsList (ind : Nat) : List Json → List String
  | [] => []
  | x :: xs => (spacesN ind ++ dumpsVal ind x) :: dumpsList ind xs

/-- Pretty-print the fields of a JSON object, each on its own line at
indentation `ind`, as `"key": value`. -/
def dumpsFieldList (ind : Nat) : List (String × Json) → List String
  | [] => []
  | (k, v) :: fs => (spacesN ind ++ quoteStr k ++ ": " ++ dumpsVal ind v) :: dumpsFieldList ind fs

end

/-- Modelled from the spec: the JSON object for one enrollment row, a
`\x7bstudent_key, status, account_exists\x7d` object (spec 4.4). -/
def enrollmentToJson (e : Enrollment) : Json :=
  .obj [("student_key", .str e.student_key),
        ("status", .str e.status),
        ("account_exists", .bool e.account_exists)]

/-- Modelled from the spec: the JSON form of the export is a list of
enrollment objects (spec 4.4). -/
def enrollmentsToJson (rows : List Enrollment) : Json :=
  .arr (rows.map enrollmentToJson)

/-- Modelled from the spec: serialize the enrollment rows in the
requested format: `csv` per `serializeEnrollmentsCsv`, `json` as
`json.dumps(rows, indent=4)` (spec 4.4 and the test-suite's
`enrollments_json` fixture). -/
def serializeEnrollments (fmt : String) (rows : List Enrollment) : String :=
  if fmt = "csv" then serializeEnrollmentsCsv rows
  else dumpsVal 0 (enrollmentsToJson rows)

/-- Modelled from the spec: the combined mutable state the job
subsystem touches: the Job Record Store, the Object Store (a map from
key to stored bytes) and the error log (newest entry first). -/
structure ExecState where
  store : JobStore
  blobs : List (String × String)
  log : List String
deriving DecidableEq, Repr

/-- Look a key up in the object store (first binding wins, so an
overwrite shadows the older blob). -/
def lookupBlob : List (String × String) → String → Option String
  | [], _ => none
  | (k, b) :: rest, key => if k = key then some b else lookupBlob rest key

/-- Modelled from the spec: the artifact key convention: the stored
key embeds the job id and the format extension, under the
`job-results/` path segment the test-suite asserts on (spec section 6
and `test_successful_job`). -/
def artifactKey (jobId fmt : String) : String :=
  "job-results/" ++ jobId ++ "." ++ fmt

/-- Modelled from the spec: the deterministic part of the signed-URL
host prefix the Object Store Client puts before the key. -/
def storageHost : String := "https://storage.example.com/"

/-- Modelled from the spec: the query string the Object Store Client
appends after the `?` of a signed URL. -/
def signatureQuery : String := "X-Signature=signed-token"

/-- Modelled from the spec: `signed_url(stored_location, ttl)` returns
a time-limited URL for the stored location: host, then the key, then a
query string carrying the signature (spec 4.5 and section 6). -/
def signed_url (loc : String) : String :=
  storageHost ++ loc ++ "?" ++ signatureQuery

/-- Modelled from the spec: `put(key, bytes, content_type)` with
idempotent-overwrite semantics: the new binding shadows any older
one (spec 4.5). -/
def putBlob (blobs : List (String × String)) (key bytes : String) : List (String × String) :=
  (key, bytes) :: blobs

/-- Modelled from the spec: `post_success(job_id, payload, format)`
stores the payload under the artifact key for the job and format, then
calls `mark_succeeded` with the resulting location (spec 4.2); a
transition failure propagates as the error and changes nothing. -/
def post_job_success (st : ExecState) (jobId payload fmt : String) : Except JobError ExecState :=
  let key := artifactKey jobId fmt
  match mark_succeeded st.store jobId key with
  | .error e => .error e
  | .ok s' => .ok { st with store := s', blobs := putBlob st.blobs key payload }

/-- Modelled from the spec: the error log line written by
`post_failure`, which must contain the job id and the message verbatim
(spec 4.2). -/
def failureLogEntry (jobId msg : String) : String :=
  "Job " ++ jobId ++ " failed. Error message: " ++ msg

/-- Modelled from the spec: `post_failure(job_id, message)` calls
`mark_failed` and logs one error line containing the job id and the
message (spec 4.2); a transition failure propagates as the error and
changes nothing. -/
def post_job_failure (st : ExecState) (jobId msg : String) : Except JobError ExecState :=
  match mark_failed st.store jobId msg with
  | .error e => .error e
  | .ok s' => .ok { st with store := s', log := failureLogEntry jobId msg :: st.log }

/-- Modelled from the spec: the observable behaviour of one unit of
work handed to the Job Executor: it either finishes and posts a
success payload, explicitly posts a failure message, or raises an
exception carrying a message (spec 4.2). -/
inductive WorkBehavior where
  | success (payload : String) (fmt : String)
  | failure (msg : String)
  | raises (exnMsg : String)
deriving DecidableEq, Repr

/-- Modelled from the spec: the generic message the executor wrapper
passes to `post_failure` when the unit of work raised without posting
its own failure; it embeds the fault message so the log line contains
it (spec 4.2 and section 7). -/
def genericFailureMessage (exnMsg : String) : String :=
  "An unexpected error occurred: " ++ exnMsg

/-- Modelled from the spec: the Job Executor boundary around one unit
of work.  A raised exception is caught and converted into a
`post_failure` call with the generic message; an invalid-transition
error from a posting call is logged and swallowed, so nothing escapes
the executor uncaught (spec 4.2 and section 7: the function is total
and returns a plain `ExecState`, never an exception). -/
def executeJob (st : ExecState) (jobId : String) (w : WorkBehavior) : ExecState :=
  let posted :=
    match w with
    | .success payload fmt => post_job_success st jobId payload fmt
    | .failure msg => post_job_failure st jobId msg
    | .raises exnMsg => post_job_failure st jobId (genericFailureMessage exnMsg)
  match posted with
  | .ok st' => st'
  | .error _ => { st with log := failureLogEntry jobId "InvalidTransitionError" :: st.log }

/-- Modelled from the spec: `start_job(owner, work_fn)` creates a
fresh Job Record in Pending state owned by the requesting principal
and returns its id; the unit of work is then run by the executor
(spec 4.2).  The caller supplies the fresh id and the creation
timestamp. -/
def start_job (st : ExecState) (jobId owner : String) (now : Nat) : ExecState :=
  { st with
    store := (jobId, { owner := owner, state := .pending, created := now,
                       resultLocation := none, errorMessage := none }) :: st.store }

/-- Modelled from the spec: a requesting principal: its identity plus
whether it holds the global-read capability `JOB_GLOBAL_READ`
(spec glossary). -/
structure Principal where
  name : String
  hasJobGlobalRead : Bool
deriving DecidableEq, Repr

/-- Modelled from the spec: the status view the job-status endpoint
renders: id, creation timestamp, state string, and the result URL or
null (spec 4.3 and section 6). -/
structure StatusView where
  id : String
  created : Nat
  state : String
  result : Option String
deriving DecidableEq, Repr

/-- Modelled from the spec: `get_status(job_id, principal)` fails with
`NotFoundError` when no record exists, with `ForbiddenError` when the
principal is neither the owner nor holds global read, and otherwise
renders the record: the result URL is present only when the state is
Succeeded, freshly signed from the stored location (spec 4.3). -/
def get_status (st : ExecState) (jobId : String) (p : Principal) : Except JobError StatusView :=
  match lookupJob st.store jobId with
  | none => .error .notFound
  | some r =>
      if p.name = r.owner ∨ p.hasJobGlobalRead = true then
        .ok { id := jobId, created := r.created, state := r.state.render,
              result :=
                match r.state, r.resultLocation with
                | .succeeded, some loc => some (signed_url loc)
                | _, _ => none }
      else .error .forbidden

/-- Modelled from the spec: one row of a program-enrollment write
payload (a status and a student key), as the write endpoint receives
it. -/
structure EnrollmentRequest where
  status : String
  student_key : String
deriving DecidableEq, Repr

/-- Modelled from the spec: the HTTP methods of the write endpoint. -/
inductive HttpMethod where
  | post
  | patch
deriving DecidableEq, Repr

/-- Modelled from the spec: the payload row limit of the write
endpoint; the 26-row payload of the test-suite must exceed it and
draw a 413 (spec section 9, open question, and
`test_write_enrollment_payload_limit`). -/
def ENROLLMENT_WRITE_MAX_SIZE : Nat := 25

/-- Modelled from the spec: the size-limit gate of the enrollment
write endpoint: a payload with more rows than the limit is rejected
with HTTP 413 and is not submitted; otherwise the rows are submitted
to the enrollment backend.  Returns the HTTP status and the rows
actually submitted, if any. -/
def writeEnrollments (method : HttpMethod) (rows : List EnrollmentRequest) :
    Nat × Option (List EnrollmentRequest) :=
  match method with
  | .post | .patch =>
      if rows.length > ENROLLMENT_WRITE_MAX_SIZE then (413, none)
      else (200, some rows)

/-- Modelled from the spec: the enrollment-export unit of work: a
failed upstream fetch routes to `post_failure` with the upstream
error, a successful fetch serializes the rows in the requested format
and posts success (spec 4.4). -/
def enrollmentExportWork (fetched : Except String (List Enrollment)) (fmt : String) : WorkBehavior :=
  match fetched with
  | .error e => .failure e
  | .ok rows => .success (serializeEnrollments fmt rows) fmt

/-- Modelled from the spec: the GET enrollments endpoint: an omitted
`fmt` query parameter defaults to `json`, a job is started for the
requesting user and the export runs under the executor
(`ProgramEnrollmentGetTests.test_ok`). -/
def handleEnrollmentGet (st : ExecState) (jobId owner : String) (now : Nat)
    (fmtParam : Option String) (fetched : Except String (List Enrollment)) : ExecState :=
  let fmt := fmtParam.getD "json"
  let st1 := start_job st jobId owner now
  executeJob st1 jobId (enrollmentExportWork fetched fmt)

/-- Concrete fixture: a pending job record, as `start_job` creates it. -/
def demoPendingRecord : JobRecord :=
  { owner := "stem-admin", state := .pending, created := 0,
    resultLocation := none, errorMessage := none }

/-- Concrete fixture: a record that already succeeded, with the
conventional artifact key stored. -/
def demoSucceededRecord : JobRecord :=
  { owner := "stem-admin", state := .succeeded, created := 0,
    resultLocation := some (artifactKey "job-1" "json"), errorMessage := none }

/-- Concrete fixture: a store holding one succeeded job. -/
def demoTerminalStore : JobStore := [("job-1", demoSucceededRecord)]

/-- Concrete fixture: a store holding one pending job. -/
def demoPendingStore : JobStore := [("job-1", demoPendingRecord)]

/-- Concrete fixture: execution state around the pending store. -/
def demoPendingState : ExecState :=
  { store := demoPendingStore, blobs := [], log := [] }

/-- Concrete fixture: execution state around the succeeded store. -/
def demoTerminalState : ExecState :=
  { store := demoTerminalStore, blobs := [], log := [] }

/-- Concrete fixture: the owner of the demo jobs, without global
read. -/
def demoOwnerPrincipal : Principal := { name := "stem-admin", hasJobGlobalRead := false }

/-- Concrete fixture: an unrelated principal without global read. -/
def demoStrangerPrincipal : Principal := { name := "hum-admin", hasJobGlobalRead := false }

/-- Auxiliary: `mark_succeeded` on a found, non-terminal record
returns the updated store. -/
theorem mark_succeeded_ok_of_nonterminal (s : JobStore) (jobId loc : String) (r : JobRecord)
    (hfind : lookupJob s jobId = some r) (hnt : r.state.isTerminal = false) :
    mark_succeeded s jobId loc =
      .ok (updateJob s jobId { r with state := .succeeded, resultLocation := some loc }) := by
  simp [mark_succeeded, hfind, hnt]

/-- Auxiliary: `mark_failed` on a found, non-terminal record returns
the updated store. -/
theorem mark_failed_ok_of_nonterminal (s : JobStore) (jobId msg : String) (r : JobRecord)
    (hfind : lookupJob s jobId = some r) (hnt : r.state.isTerminal = false) :
    mark_failed s jobId msg =
      .ok (updateJob s jobId { r with state := .failed, errorMessage := some msg }) := by
  simp [mark_failed, hfind, hnt]

/-- Auxiliary: both transition calls refuse a terminal record with
`InvalidTransitionError`. -/
theorem mark_terminal_errors (s : JobStore) (jobId loc msg : String) (r : JobRecord)
    (hfind : lookupJob s jobId = some r) (hterm : r.state.isTerminal = true) :
    mark_succeeded s jobId loc = .error .invalidTransition ∧
    mark_failed s jobId msg = .error .invalidTransition := by
  constructor <;> simp [mark_succeeded, mark_failed, hfind, hterm]

/-- C1: once a Job Record is terminal (Succeeded or Failed), any
subsequent `mark_succeeded` or `mark_failed` call on that job id fails
with `InvalidTransitionError`; and a record that just transitioned via
`mark_succeeded` (resp. `mark_failed`) is recorded as Succeeded
(resp. Failed) and rejects both further transition calls, so the
recorded terminal state is never overwritten (an erroring call returns
no store, leaving the store unchanged by construction). -/
theorem terminal_state_never_overwritten (s : JobStore) (jobId loc loc₂ m m₂ : String)
    (r : JobRecord) (hfind : lookupJob s jobId = some r) :
    (r.state.isTerminal = true →
       mark_succeeded s jobId loc = .error .invalidTransition ∧
       mark_failed s jobId m = .error .invalidTransition) ∧
    (∀ s', mark_succeeded s jobId loc = .ok s' →
       ∃ r', lookupJob s' jobId = some r' ∧ r'.state = .succeeded ∧
         mark_succeeded s' jobId loc₂ = .error .invalidTransition ∧
         mark_failed s' jobId m₂ = .error .invalidTransition) ∧
    (∀ s', mark_failed s jobId m = .ok s' →
       ∃ r', lookupJob s' jobId = some r' ∧ r'.state = .failed ∧
         mark_succeeded s' jobId loc₂ = .error .invalidTransition ∧
         mark_failed s' jobId m₂ = .error .invalidTransition) := by
  refine ⟨fun hterm => mark_terminal_errors s jobId loc m r hfind hterm, ?_, ?_⟩
  · intro s' h
    by_cases hterm : r.state.isTerminal
    · simp [mark_succeeded, hfind, hterm] at h
    · rw [mark_succeeded_ok_of_nonterminal s jobId loc r hfind (by simpa using hterm)] at h
      obtain rfl : updateJob s jobId { r with state := .succeeded, resultLocation := some loc } = s' := by
        simpa using h
      refine ⟨_, lookupJob_updateJob_self s jobId r _ hfind, rfl, ?_⟩
      exact mark_terminal_errors _ jobId loc₂ m₂ _
        (lookupJob_updateJob_self s jobId r _ hfind) rfl
  · intro s' h
    by_cases hterm : r.state.isTerminal
    · simp [mark_failed, hfind, hterm] at h
    · rw [mark_failed_ok_of_nonterminal s jobId m r hfind (by simpa using hterm)] at h
      obtain rfl : updateJob s jobId { r with state := .failed, errorMessage := some m } = s' := by
        simpa using h
      refine ⟨_, lookupJob_updateJob_self s jobId r _ hfind, rfl, ?_⟩
      exact mark_terminal_errors _ jobId loc₂ m₂ _
        (lookupJob_updateJob_self s jobId r _ hfind) rfl

/-- Witness for C1: on a concrete store holding a succeeded job, both
transition calls fail with `InvalidTransitionError`. -/
theorem terminal_state_never_overwritten_witness :
    mark_succeeded demoTerminalStore "job-1" "other-loc" = .error .invalidTransition ∧
    mark_failed demoTerminalStore "job-1" "boom" = .error .invalidTransition :=
  (terminal_state_never_overwritten demoTerminalStore "job-1" "other-loc" "other-loc"
    "boom" "boom" demoSucceededRecord (by rfl)).1 (by rfl)

/-- Auxiliary: on a found, non-terminal record, `post_job_failure`
succeeds, marks the record Failed with the message, and pushes exactly
one log entry. -/
theorem post_job_failure_ok (st : ExecState) (jobId m : String) (r : JobRecord)
    (hfind : lookupJob st.store jobId = some r) (hnt : r.state.isTerminal = false) :
    post_job_failure st jobId m =
      .ok { st with
              store := updateJob st.store jobId { r with state := .failed, errorMessage := some m },
              log := failureLogEntry jobId m :: st.log } := by
  simp [post_job_failure, mark_failed_ok_of_nonterminal st.store jobId m r hfind hnt]

/-- C2: when the unit of work raises an exception without posting its
own failure, the executor boundary catches it and posts a failure with
the generic message: the job record transitions to Failed (a terminal
state), the error message records the generic message, and exactly one
log entry is pushed, containing both the job id and the fault message
as substrings.  `executeJob` returns a plain `ExecState`, so no
exception escapes the executor boundary. -/
theorem executor_catches_raised_fault (st : ExecState) (jobId exnMsg : String) (r : JobRecord)
    (hfind : lookupJob st.store jobId = some r) (hnt : r.state.isTerminal = false) :
    ∃ r', lookupJob (executeJob st jobId (.raises exnMsg)).store jobId = some r' ∧
      r'.state = .failed ∧ r'.state.isTerminal = true ∧
      r'.errorMessage = some (genericFailureMessage exnMsg) ∧
      (executeJob st jobId (.raises exnMsg)).log =
        failureLogEntry jobId (genericFailureMessage exnMsg) :: st.log ∧
      (∃ a b, failureLogEntry jobId (genericFailureMessage exnMsg) = a ++ jobId ++ b) ∧
      (∃ c d, failureLogEntry jobId (genericFailureMessage exnMsg) = c ++ exnMsg ++ d) := by
  have hpost := post_job_failure_ok st jobId (genericFailureMessage exnMsg) r hfind hnt
  refine ⟨{ r with state := .failed, errorMessage := some (genericFailureMessage exnMsg) },
    ?_, rfl, rfl, rfl, ?_, ?_, ?_⟩
  · simp only [executeJob, hpost]
    exact lookupJob_updateJob_self st.store jobId r _ hfind
  · simp only [executeJob, hpost]
  · refine ⟨"Job ", " failed. Error message: " ++ genericFailureMessage exnMsg, ?_⟩
    simp [failureLogEntry, String.append_assoc]
  · refine ⟨"Job " ++ jobId ++ " failed. Error message: " ++ "An unexpected error occurred: ", "", ?_⟩
    rw [String.append_empty]
    exact (String.append_assoc ("Job " ++ jobId ++ " failed. Error message: ")
      "An unexpected error occurred: " exnMsg).symm

/-- Witness for C2: a concrete pending job whose work raises is left
Failed with the generic message logged once. -/
theorem executor_catches_raised_fault_witness :
    ∃ r', lookupJob (executeJob demoPendingState "job-1" (.raises "division by zero")).store
        "job-1" = some r' ∧
      r'.state = .failed ∧ r'.state.isTerminal = true ∧
      r'.errorMessage = some (genericFailureMessage "division by zero") ∧
      (executeJob demoPendingState "job-1" (.raises "division by zero")).log =
        failureLogEntry "job-1" (genericFailureMessage "division by zero") ::
          demoPendingState.log ∧
      (∃ a b, failureLogEntry "job-1" (genericFailureMessage "division by zero") =
        a ++ "job-1" ++ b) ∧
      (∃ c d, failureLogEntry "job-1" (genericFailureMessage "division by zero") =
        c ++ "division by zero" ++ d) :=
  executor_catches_raised_fault demoPendingState "job-1" "division by zero"
    demoPendingRecord (by rfl) (by rfl)

/-- C7: posting a failure with message `m` on a live job succeeds:
the record becomes Failed with `m` as its error message, exactly one
error log entry is emitted, that entry contains the job id and `m`
verbatim, and any successful status read afterwards shows state
`Failed` with a null result. -/
theorem post_failure_marks_failed_and_logs (st : ExecState) (jobId m : String) (r : JobRecord)
    (hfind : lookupJob st.store jobId = some r) (hnt : r.state.isTerminal = false) :
    ∃ st', post_job_failure st jobId m = .ok st' ∧
      (∃ r', lookupJob st'.store jobId = some r' ∧
        r'.state = .failed ∧ r'.errorMessage = some m) ∧
      st'.log = failureLogEntry jobId m :: st.log ∧
      st'.log.length = st.log.length + 1 ∧
      (∃ a b, failureLogEntry jobId m = a ++ jobId ++ b) ∧
      (∃ c d, failureLogEntry jobId m = c ++ m ++ d) ∧
      (∀ p v, get_status st' jobId p = .ok v → v.state = "Failed" ∧ v.result = none) := by
  have hpost := post_job_failure_ok st jobId m r hfind hnt
  set r' : JobRecord := { r with state := .failed, errorMessage := some m } with hr'
  have hlook : lookupJob (updateJob st.store jobId r') jobId = some r' :=
    lookupJob_updateJob_self st.store jobId r r' hfind
  refine ⟨_, hpost, ⟨r', hlook, rfl, rfl⟩, rfl, by simp, ?_, ?_, ?_⟩
  · exact ⟨"Job ", " failed. Error message: " ++ m, by simp [failureLogEntry, String.append_assoc]⟩
  · exact ⟨"Job " ++ jobId ++ " failed. Error message: ", "",
      by simp [failureLogEntry, String.append_assoc, String.append_empty]⟩
  · intro p v hv
    by_cases hp : p.name = r'.owner ∨ p.hasJobGlobalRead = true
    · simp [get_status, hlook, hp] at hv
      simp [← hv, JobState.render]
    · simp [get_status, hlook, hp] at hv

/-- Witness for C7: a concrete pending job posted as failed shows
Failed state, a null result and the single log line. -/
theorem post_failure_marks_failed_and_logs_witness :
    ∃ st', post_job_failure demoPendingState "job-1" "everything is broken" = .ok st' ∧
      (∃ r', lookupJob st'.store "job-1" = some r' ∧
        r'.state = .failed ∧ r'.errorMessage = some "everything is broken") ∧
      st'.log = failureLogEntry "job-1" "everything is broken" :: demoPendingState.log ∧
      st'.log.length = demoPendingState.log.length + 1 ∧
      (∃ a b, failureLogEntry "job-1" "everything is broken" = a ++ "job-1" ++ b) ∧
      (∃ c d, failureLogEntry "job-1" "everything is broken" = c ++ "everything is broken" ++ d) ∧
      (∀ p v, get_status st' "job-1" p = .ok v → v.state = "Failed" ∧ v.result = none) :=
  post_failure_marks_failed_and_logs demoPendingState "job-1" "everything is broken"
    demoPendingRecord (by rfl) (by rfl)

/-- Auxiliary: the signed URL of the conventional artifact key
decomposes around the `jobId.fmt?` needle the external tests assert
on. -/
theorem signed_url_artifactKey_decomp (jobId fmt : String) :
    signed_url (artifactKey jobId fmt) =
      (storageHost ++ "job-results/") ++ (jobId ++ "." ++ fmt ++ "?") ++ signatureQuery := by
  simp only [signed_url, artifactKey, String.append_assoc]

/-- C4: a job status response carries `result = null` whenever the
rendered state is not exactly `"Succeeded"`; when it is
`"Succeeded"` (given the store invariant that a succeeded record holds
the conventional artifact key `job-results/{jobId}.{fmt}`), the result
is a URL string containing `{jobId}.{fmt}?` — the job id, the
extension of the requested format, then the query string. -/
theorem status_result_url_convention (st : ExecState) (jobId fmt : String) (p : Principal)
    (r : JobRecord) (v : StatusView)
    (hfind : lookupJob st.store jobId = some r)
    (hkey : r.state = .succeeded → r.resultLocation = some (artifactKey jobId fmt))
    (hv : get_status st jobId p = .ok v) :
    (v.state ≠ "Succeeded" → v.result = none) ∧
    (v.state = "Succeeded" →
      ∃ a b, v.result = some (a ++ (jobId ++ "." ++ fmt ++ "?") ++ b)) := by
  by_cases hp : p.name = r.owner ∨ p.hasJobGlobalRead = true
  · simp only [get_status, hfind, hp, if_pos] at hv
    rw [Except.ok.injEq] at hv
    subst hv
    cases hs : r.state with
    | succeeded =>
        refine ⟨fun hne => absurd (by simp [hs, JobState.render]) hne, fun _ => ?_⟩
        refine ⟨storageHost ++ "job-results/", signatureQuery, ?_⟩
        simp only [hs, hkey hs]
        exact congrArg some (signed_url_artifactKey_decomp jobId fmt)
    | pending =>
        refine ⟨fun _ => by simp [hs], fun heq => ?_⟩
        simp [hs, JobState.render] at heq
    | inProgress =>
        refine ⟨fun _ => by simp [hs], fun heq => ?_⟩
        simp [hs, JobState.render] at heq
    | failed =>
        refine ⟨fun _ => by simp [hs], fun heq => ?_⟩
        simp [hs, JobState.render] at heq
  · simp [get_status, hfind, hp] at hv

/-- Witness for C4: the status view of a concrete succeeded job, whose
result URL contains `job-1.json?`. -/
theorem status_result_url_convention_witness :
    (({ id := "job-1", created := 0, state := "Succeeded",
        result := some (signed_url (artifactKey "job-1" "json")) } : StatusView).state ≠
          "Succeeded" →
      ({ id := "job-1", created := 0, state := "Succeeded",
         result := some (signed_url (artifactKey "job-1" "json")) } : StatusView).result =
        none) ∧
    (({ id := "job-1", created := 0, state := "Succeeded",
        result := some (signed_url (artifactKey "job-1" "json")) } : StatusView).state =
          "Succeeded" →
      ∃ a b,
        ({ id := "job-1", created := 0, state := "Succeeded",
           result := some (signed_url (artifactKey "job-1" "json")) } : StatusView).result =
          some (a ++ ("job-1" ++ "." ++ "json" ++ "?") ++ b)) :=
  status_result_url_convention demoTerminalState "job-1" "json" demoOwnerPrincipal
    demoSucceededRecord _ (by rfl) (fun _ => by rfl) (by rfl)

/-- C5: for an existing job, `get_status` answers successfully exactly
when the requesting principal is the owner or holds global read, and
answers `ForbiddenError` for every other principal. -/
theorem get_status_authorization (st : ExecState) (jobId : String) (p : Principal)
    (r : JobRecord) (hfind : lookupJob st.store jobId = some r) :
    ((∃ v, get_status st jobId p = .ok v) ↔ (p.name = r.owner ∨ p.hasJobGlobalRead = true)) ∧
    (¬(p.name = r.owner ∨ p.hasJobGlobalRead = true) →
      get_status st jobId p = .error .forbidden) := by
  by_cases hp : p.name = r.owner ∨ p.hasJobGlobalRead = true
  · refine ⟨⟨fun _ => hp,
      fun _ => ⟨{ id := jobId, created := r.created, state := r.state.render,
                  result := match r.state, r.resultLocation with
                            | .succeeded, some loc => some (signed_url loc)
                            | _, _ => none }, ?_⟩⟩, fun hn => absurd hp hn⟩
    simp [get_status, hfind, hp]
  · refine ⟨⟨fun ⟨v, hv⟩ => ?_, fun h => absurd h hp⟩, fun _ => ?_⟩
    · simp [get_status, hfind, hp] at hv
    · simp [get_status, hfind, hp]

/-- Witness for C5: the owner of a concrete job can read its status,
and a non-owner without global read draws Forbidden. -/
theorem get_status_authorization_witness :
    (∃ v, get_status demoTerminalState "job-1" demoOwnerPrincipal = .ok v) ∧
    get_status demoTerminalState "job-1" demoStrangerPrincipal = .error .forbidden :=
  ⟨(get_status_authorization demoTerminalState "job-1" demoOwnerPrincipal
      demoSucceededRecord (by rfl)).1.mpr (Or.inl rfl),
   (get_status_authorization demoTerminalState "job-1" demoStrangerPrincipal
      demoSucceededRecord (by rfl)).2 (by decide)⟩

/-- C6: when no Job Record exists for the requested id, `get_status`
answers `NotFoundError` for every requesting principal, owner-like or
global-read alike. -/
theorem get_status_unknown_job (st : ExecState) (jobId : String) (p : Principal)
    (hnone : lookupJob st.store jobId = none) :
    get_status st jobId p = .error .notFound := by
  simp [get_status, hnone]

/-- Witness for C6: an empty store answers NotFound, even to a
principal holding global read. -/
theorem get_status_unknown_job_witness :
    get_status { store := [], blobs := [], log := [] } "no-such-job"
      { name := "edx-admin", hasJobGlobalRead := true } = .error .notFound :=
  get_status_unknown_job _ _ _ (by rfl)

/-- Concrete fixture: the two enrollment rows of the round-trip test
(`ProgramEnrollmentGetTests.enrollments`). -/
def sampleEnrollments : List Enrollment :=
  [{ student_key := "abcd", status := "enrolled", account_exists := true },
   { student_key := "efgh", status := "pending", account_exists := false }]

/-- Check that a JSON value is an object whose field names are exactly
`student_key`, `status`, `account_exists`, in order. -/
def isEnrollmentObject : Json → Bool
  | .obj fs => fs.map Prod.fst == ["student_key", "status", "account_exists"]
  | _ => false

/-- Check that a JSON value is an array of enrollment objects. -/
def isEnrollmentObjectList : Json → Bool
  | .arr xs => xs.all isEnrollmentObject
  | _ => false

/-- C3: serializing the two sample rows in `csv` format yields exactly
`abcd,enrolled,true\nefgh,pending,false` — one line per row, columns
`student_key,status,account_exists`, booleans lowercase, no header
row, newline-joined, no trailing newline; and for every row list, the
`json` form is a list of objects with exactly those field names. -/
theorem enrollment_serialization_formats :
    serializeEnrollments "csv" sampleEnrollments = "abcd,enrolled,true\nefgh,pending,false" ∧
    ∀ rows : List Enrollment, isEnrollmentObjectList (enrollmentsToJson rows) = true := by
  refine ⟨by rfl, fun rows => ?_⟩
  simp only [enrollmentsToJson, isEnrollmentObjectList, List.all_eq_true]
  intro j hj
  obtain ⟨e, _, rfl⟩ := List.mem_map.mp hj
  rfl

/-- C8: a program-enrollment write payload of 26 rows is rejected
with HTTP 413 and nothing is submitted, on POST and PATCH alike. -/
theorem write_payload_limit_413 (method : HttpMethod) (rows : List EnrollmentRequest)
    (h : rows.length = 26) :
    writeEnrollments method rows = (413, none) := by
  cases method <;> simp [writeEnrollments, h, ENROLLMENT_WRITE_MAX_SIZE]

/-- Witness for C8: a concrete 26-row payload draws 413 on POST. -/
theorem write_payload_limit_413_witness :
    writeEnrollments .post
      (List.replicate 26 { status := "enrolled", student_key := "0001" }) = (413, none) :=
  write_payload_limit_413 .post
    (List.replicate 26 { status := "enrolled", student_key := "0001" }) (by rfl)

/-- C9: an enrollment-export request with the `fmt` query parameter
omitted behaves exactly as if `fmt=json` had been given: the whole
resulting execution state is equal, and after a successful fetch the
job reads back as Succeeded with a result URL containing
`{jobId}.json?`. -/
theorem export_default_format_json (st : ExecState) (jobId owner : String) (now : Nat)
    (fetched : Except String (List Enrollment)) (rows : List Enrollment) :
    handleEnrollmentGet st jobId owner now none fetched =
      handleEnrollmentGet st jobId owner now (some "json") fetched ∧
    ∃ v, get_status (handleEnrollmentGet st jobId owner now none (.ok rows)) jobId
        { name := owner, hasJobGlobalRead := false } = .ok v ∧
      v.state = "Succeeded" ∧
      ∃ a b, v.result = some (a ++ (jobId ++ ".json?") ++ b) := by
  refine ⟨rfl, ?_⟩
  refine ⟨{ id := jobId, created := now, state := "Succeeded",
            result := some (signed_url (artifactKey jobId "json")) }, ?_, rfl, ?_⟩
  · simp [handleEnrollmentGet, start_job, executeJob, enrollmentExportWork,
      post_job_success, mark_succeeded, lookupJob, updateJob, get_status,
      JobState.isTerminal, JobState.render]
  · refine ⟨storageHost ++ "job-results/", signatureQuery, ?_⟩
    rw [congrArg some (signed_url_artifactKey_decomp jobId "json")]
    refine congrArg some (congrArg (fun s => (storageHost ++ "job-results/") ++ s ++ signatureQuery) ?_)
    simp [String.append_assoc]

/-- C10: the stored artifact of a `json`-format export is the row list
pretty-printed exactly as Python `json.dumps(rows, indent=4)` renders
it; at the two sample rows the stored bytes are the exact four-space
indented text, and for every row list the stored blob equals the
indent-4 dump of the enrollment JSON. -/
theorem export_json_artifact_pretty_printed :
    serializeEnrollments "json" sampleEnrollments =
      "[\n    \x7b\n        \"student_key\": \"abcd\",\n        \"status\": \"enrolled\",\n        \"account_exists\": true\n    \x7d,\n    \x7b\n        \"student_key\": \"efgh\",\n        \"status\": \"pending\",\n        \"account_exists\": false\n    \x7d\n]" ∧
    lookupBlob (handleEnrollmentGet { store := [], blobs := [], log := [] } "job-9" "hum-admin" 7
        (some "json") (.ok sampleEnrollments)).blobs (artifactKey "job-9" "json") =
      some "[\n    \x7b\n        \"student_key\": \"abcd\",\n        \"status\": \"enrolled\",\n        \"account_exists\": true\n    \x7d,\n    \x7b\n        \"student_key\": \"efgh\",\n        \"status\": \"pending\",\n        \"account_exists\": false\n    \x7d\n]" ∧
    ∀ (st : ExecState) (jobId owner : String) (now : Nat) (rows : List Enrollment),
      lookupBlob (handleEnrollmentGet st jobId owner now (some "json") (.ok rows)).blobs
          (artifactKey jobId "json") =
        some (dumpsVal 0 (enrollmentsToJson rows)) := by
  refine ⟨by rfl, by rfl, fun st jobId owner now rows => ?_⟩
  simp [handleEnrollmentGet, start_job, executeJob, enrollmentExportWork,
    post_job_success, mark_succeeded, lookupJob, updateJob, putBlob, lookupBlob,
    serializeEnrollments, JobState.isTerminal]

end Registrar
